import Mathlib

/-!
# Verification of the aerialintelligence per-frame decision pipeline

Shallow embedding of the stateful filtering and alert-debounce pipeline:
motion detection (`motion_detector.py`), frame deduplication
(`frame_deduplicator.py`), threat scoring (`threat_detector.py`),
alert debouncing (`telegram_notifier.py`) and the orchestration in
`process_frame.py`, together with theorems settling the specification
claims about them.

Modelling conventions:
* Machine floats (timestamps, percentages, similarities) are modelled as `ℚ`.
* Grayscale images are flattened pixel lists (`List ℕ`); `cv2.imread`
  returning `None` for an undecodable file is modelled by feeding
  `Option (List ℕ)` to a gate.
* The regex pattern table of `ThreatDetector` is modelled by its observable
  effect on an input text: for each pattern of each category, whether
  `re.search` finds a match and, if so, the matched snippet (`Option String`).
  Every concrete text induces such a match vector, so quantifying over all
  match vectors covers all texts.
* Network collaborators (classifier, Telegram send) are modelled by an
  oracle record giving their outcome for the processed frame.
-/

namespace AerialIntelligence

/-! ## ThreatDetector (`python_modules/threat_detector.py`) -/

/-- Observable behaviour of an input text against the fixed pattern table of
`ThreatDetector._initialize_patterns`: one entry per pattern of each category
(`critical` has 6 patterns, `high` 4, `medium` 4, `normal` 3), holding
`some s` when `re.search` matches with first match `s`, else `none`. -/
structure TextMatches where
  critical : List (Option String)
  high : List (Option String)
  medium : List (Option String)
  normal : List (Option String)

/-- The reason strings appended by one category loop of `analyze_threat`:
one `"<label><snippet>"` string per matching pattern, in pattern order
(the loop appends `f"Critical threat: {match.group(0)}"` etc. for each
pattern that matches). -/
def categoryReasons (label : String) (ms : List (Option String)) : List String :=
  ms.filterMap (fun m => m.map (fun s => label ++ s))

/-- The score update of one category loop of `analyze_threat`: the loop runs
`score = max(score, sev)` once per matching pattern, which leaves `score`
unchanged when no pattern matches and sets it to `max score sev` otherwise. -/
def categoryScore (sev : ℤ) (ms : List (Option String)) (s : ℤ) : ℤ :=
  if ms.any (fun m => m.isSome) then max s sev else s

/-- Number of matching normal-indicator patterns (`normal_count` in
`analyze_threat`). -/
def normalCount (tm : TextMatches) : ℕ :=
  tm.normal.countP (fun m => m.isSome)

/-- Embeds `ThreatDetector._get_threat_level`. -/
def get_threat_level (score : ℤ) : String :=
  if score ≥ 5 then "CRITICAL"
  else if score ≥ 4 then "HIGH"
  else if score ≥ 3 then "MEDIUM"
  else if score ≥ 2 then "LOW"
  else "NONE"

/-- Embeds `ThreatDetector._calculate_confidence`. -/
def calculate_confidence (threat_indicators normal_indicators : ℕ) : ℤ :=
  let c1 : ℤ := 50 + (if threat_indicators > 0
    then min ((threat_indicators : ℤ) * 15) 40 else 0)
  let c2 : ℤ := c1 - (if normal_indicators > 0
    then min ((normal_indicators : ℤ) * 10) 30 else 0)
  max 10 (min c2 95)

/-- Embeds `ThreatDetector._get_recommended_action` (a dictionary lookup with
default `'none'`). -/
def get_recommended_action (level : String) : String :=
  if level = "CRITICAL" then "immediate_response"
  else if level = "HIGH" then "investigate_immediately"
  else if level = "MEDIUM" then "monitor_closely"
  else if level = "LOW" then "log_for_review"
  else "none"

/-- The analysis record built by `ThreatDetector.analyze_threat`
(the metadata fields `timestamp`, `image_file` and the echoed
`classification` text are omitted: no claim mentions them, and the
`detected_patterns` list is dead code never read downstream). -/
structure ThreatAnalysis where
  threat_detected : Bool
  threat_level : String
  threat_score : ℤ
  threat_reasons : List String
  confidence : ℤ
  recommended_action : String

/-- Embeds `ThreatDetector.analyze_threat`, with `threshold` the configured
`Config.THREAT_THRESHOLD`.  Scoring starts at 1; the critical/high/medium
loops raise it by `max` (severities 5/4/3) and append one reason per
matching pattern; when `normal_count > 0` the score is reduced to
`max(1, score - normal_count)` and a summary reason is appended; confidence
is computed from the final reason-list length (summary included, as in the
source, which calls `_calculate_confidence(len(threat_reasons), ...)` after
the append) and `normal_count`. -/
def analyze_threat (threshold : ℤ) (tm : TextMatches) : ThreatAnalysis :=
  let s1 := categoryScore 5 tm.critical 1
  let s2 := categoryScore 4 tm.high s1
  let s3 := categoryScore 3 tm.medium s2
  let r3 := categoryReasons "Critical threat: " tm.critical
    ++ categoryReasons "High threat: " tm.high
    ++ categoryReasons "Medium threat: " tm.medium
  let normal_count := normalCount tm
  let threat_score :=
    if normal_count > 0 then max 1 (s3 - (normal_count : ℤ)) else s3
  let threat_reasons :=
    if normal_count > 0
    then r3 ++ ["Normal activity indicators: " ++ toString normal_count]
    else r3
  let threat_level := get_threat_level threat_score
  { threat_detected := decide (threat_score ≥ threshold)
    threat_level := threat_level
    threat_score := threat_score
    threat_reasons := threat_reasons
    confidence := calculate_confidence threat_reasons.length normal_count
    recommended_action := get_recommended_action threat_level }

/-- Total number of matching threat patterns (critical + high + medium):
this equals the number of reason strings excluding the normal-reduction
summary, the quantity the spec calls `reasonCountExcludingNormalReduction`. -/
def threatPatternMatches (tm : TextMatches) : ℕ :=
  tm.critical.countP (fun m => m.isSome)
    + tm.high.countP (fun m => m.isSome)
    + tm.medium.countP (fun m => m.isSome)

/-- The confidence formula exactly as the spec words it (claim C2):
`clamp(50 + min(15 × reasonCountExcludingNormalReduction, 40)
       − min(10 × normalMatches, 30), 10, 95)`,
where the reason count excludes the normal-reduction summary reason. -/
def confidence_per_spec (tm : TextMatches) : ℤ :=
  max 10 (min (50 + min ((threatPatternMatches tm : ℤ) * 15) 40
    - min ((normalCount tm : ℤ) * 10) 30) 95)

/-- Match vector induced by the text `"employee"`: it matches only the first
normal-indicator pattern `\b(employee|worker|staff|security|guard)\b`
(snippet `"employee"`) and no critical/high/medium pattern. -/
def employeeTM : TextMatches :=
  { critical := [none, none, none, none, none, none]
    high := [none, none, none, none]
    medium := [none, none, none, none]
    normal := [some "employee", none, none] }

/-- Match vector induced by the text `"an intruder with a knife breaks in"`:
critical pattern 1 (weapons) matches `"knife"` and critical pattern 6
(`\b(intruder|burglar|break-in)\b`) matches `"intruder"`; no other pattern
matches. -/
def intruderTM : TextMatches :=
  { critical := [some "knife", none, none, none, none, some "intruder"]
    high := [none, none, none, none]
    medium := [none, none, none, none]
    normal := [none, none, none] }

/-! ## MotionDetector (`python_modules/motion_detector.py`) -/

/-- Embeds `cv2.dilate(thresh, None, iterations=1)` on the flattened raster:
every output pixel is the maximum of its neighbourhood (modelled as the
adjacent positions of the flattened list; out-of-range neighbours default
to 0).  The pipeline applies it twice (`iterations=2`). -/
def dilate (l : List ℕ) : List ℕ :=
  (List.range l.length).map fun i =>
    max (max (l.getD (i - 1) 0) (l.getD i 0)) (l.getD (i + 1) 0)

/-- State and tunables of `MotionDetector`.  `prev_frame` stores the
grayscale-and-blurred raster of the most recent successfully processed
frame (`None` before the bootstrap frame). -/
structure MotionDetector where
  prev_frame : Option (List ℕ)
  threshold : ℕ
  min_change_percent : ℚ
  frame_count : ℕ

/-- Embeds `MotionDetector.detect_motion`.  The argument is the decoded
grayscale-and-blurred raster (`none` when `cv2.imread` fails; the
grayscale/blur preprocessing is deterministic, so bit-identical files give
identical rasters).  The error branch for rasters of mismatched length
models the `cv2.absdiff` shape-mismatch exception, which the broad
`except` turns into `(True, 0)` without updating `prev_frame`;
`frame_count` is incremented before the `try` block on every call. -/
def MotionDetector.detect_motion (d : MotionDetector) (frame : Option (List ℕ)) :
    (Bool × ℚ) × MotionDetector :=
  let d1 : MotionDetector := { d with frame_count := d.frame_count + 1 }
  match frame with
  | none => ((true, 0), d1)
  | some gray =>
    match d.prev_frame with
    | none => ((true, 100), { d1 with prev_frame := some gray })
    | some prev =>
      if prev.length ≠ gray.length then ((true, 0), d1)
      else
        let frame_delta := List.zipWith (fun a b => max a b - min a b) prev gray
        let thresh := frame_delta.map (fun p => if d.threshold < p then (255 : ℕ) else 0)
        let dilated := dilate (dilate thresh)
        let motion_pixels := dilated.countP (fun p => 0 < p)
        let motion_percent := ((motion_pixels : ℚ) / (dilated.length : ℚ)) * 100
        ((decide (motion_percent ≥ d.min_change_percent), motion_percent),
          { d1 with prev_frame := some gray })

/-- Embeds `MotionDetector.reset`. -/
def MotionDetector.reset (d : MotionDetector) : MotionDetector :=
  { d with prev_frame := none, frame_count := 0 }

/-! ## FrameDeduplicator (`python_modules/frame_deduplicator.py`) -/

/-- State of `FrameDeduplicator`: the average-hash of the most recent
frame that reached the hash comparison (`None` before the bootstrap). -/
structure FrameDeduplicator where
  prev_hash : Option (List Bool)
  similarity_threshold : ℚ

/-- Embeds `FrameDeduplicator._compute_hash`: average-hash of the (resized,
grayscale) image — one bit per pixel, true iff the pixel exceeds the mean
intensity. -/
def compute_hash (img : List ℕ) : List Bool :=
  let avg : ℚ := (img.sum : ℚ) / (img.length : ℚ)
  img.map (fun (p : ℕ) => decide (avg < (p : ℚ)))

/-- Embeds `FrameDeduplicator._compare_hashes`: similarity is the fraction of
matching bits; mismatched lengths give 0.  `none` models the
`ZeroDivisionError` raised by `matches / len(hash1)` on empty equal-length
hashes (unreachable for real images, whose resize is 64×64). -/
def compare_hashes (h1 h2 : List Bool) : Option ℚ :=
  if h1.length ≠ h2.length then some 0
  else if h1.length = 0 then none
  else some (((List.zipWith (fun a b => a == b) h1 h2).count true : ℚ) / (h1.length : ℚ))

/-- Embeds `FrameDeduplicator.is_duplicate`.  The argument is the decoded image
(`none` when `cv2.imread` fails).  A `compare_hashes` exception is caught
by the broad `except` and yields `(False, 0)` without updating
`prev_hash` (the update statement comes after the comparison). -/
def FrameDeduplicator.is_duplicate (d : FrameDeduplicator) (frame : Option (List ℕ)) :
    (Bool × ℚ) × FrameDeduplicator :=
  match frame with
  | none => ((false, 0), d)
  | some img =>
    let current_hash := compute_hash img
    match d.prev_hash with
    | none => ((false, 0), { d with prev_hash := some current_hash })
    | some ph =>
      match compare_hashes ph current_hash with
      | none => ((false, 0), d)
      | some similarity =>
        ((decide (similarity ≥ d.similarity_threshold), similarity),
          { d with prev_hash := some current_hash })

/-- Embeds `FrameDeduplicator.reset`. -/
def FrameDeduplicator.reset (d : FrameDeduplicator) : FrameDeduplicator :=
  { d with prev_hash := none }

/-! ## TelegramNotifier debounce state (`python_modules/telegram_notifier.py`)

The class-level `_last_alert_time` dictionary is modelled as an association
list from threat level to last-send timestamp; `time.time()` readings are
passed explicitly. -/

/-- The `TelegramNotifier._last_alert_time` class dictionary. -/
abbrev AlertMap := List (String × ℚ)

/-- Embeds `TelegramNotifier._should_debounce` with the `time.time()` reading
passed as `now` and the class cooldown as `cooldown`. -/
def should_debounce (m : AlertMap) (cooldown : ℚ) (level : String) (now : ℚ) : Bool :=
  match m.lookup level with
  | some t => decide (now - t < cooldown)
  | none => false

/-- Embeds `TelegramNotifier._update_last_alert_time` (dictionary assignment,
overwriting any previous entry for `level`).  Defined in the source but
never invoked by any code in the repository. -/
def update_last_alert_time (m : AlertMap) (level : String) (now : ℚ) : AlertMap :=
  (level, now) :: m.filter (fun p => !(p.1 == level))

/-- The spec-facing `AlertDebouncer.shouldSend` view of the notifier's
debounce state: sending is permitted exactly when `_should_debounce`
says the alert is not too soon. -/
def should_send (m : AlertMap) (cooldown : ℚ) (level : String) (now : ℚ) : Bool :=
  !(should_debounce m cooldown level now)

/-- Embeds `TelegramNotifier.reset_cooldown` (clears the class dictionary). -/
def reset_cooldown (_ : AlertMap) : AlertMap := []

/-! ## Pipeline (`process_frame.py`) -/

/-- The `ProcessingState.stats` counter dictionary. -/
structure SessionStats where
  total_frames : ℕ
  skipped_no_motion : ℕ
  skipped_duplicate : ℕ
  processed : ℕ
  threats_detected : ℕ
  alerts_sent : ℕ
  alerts_debounced : ℕ

/-- The all-zero counter dictionary installed by `ProcessingState.__new__`
and by `ProcessingState.reset`. -/
def initStats : SessionStats :=
  { total_frames := 0, skipped_no_motion := 0, skipped_duplicate := 0
    processed := 0, threats_detected := 0, alerts_sent := 0, alerts_debounced := 0 }

/-- The mutable state visible to `process_frame`: the `ProcessingState`
singleton (motion detector, deduplicator, stats) together with the
class-level debounce dictionary of `TelegramNotifier`. -/
structure SystemState where
  motion : MotionDetector
  dedup : FrameDeduplicator
  stats : SessionStats
  last_alert_time : AlertMap

/-- Configuration values read by the pipeline (`Config`). -/
structure PipelineConfig where
  telegram_enabled : Bool
  threat_threshold : ℤ
  alert_cooldown : ℚ

/-- Per-frame outcome of the external world: decoded rasters for the two
gates (the file is read independently by each gate), the classification
collaborator's outcome (failure message or the description's match
vector), the network outcome of `send_alert`, the `time.time()` reading
used by `_should_debounce`, and the measured elapsed wall time. -/
structure FrameOracle where
  motionFrame : Option (List ℕ)
  dedupFrame : Option (List ℕ)
  classify : Except String TextMatches
  sendResult : Bool
  now : ℚ
  elapsed : ℚ

/-- The result dictionary of `process_frame` (fields not touched by any
claim — `image_file`, `result_file`, the echoed classification text —
are omitted). -/
structure FrameResult where
  success : Bool
  skipped : Bool
  skip_reason : Option String
  motion_percent : Option ℚ
  similarity : Option ℚ
  threat_analysis : Option ThreatAnalysis
  alert_sent : Bool
  alert_debounced : Bool
  processing_time : ℚ
  error : Option String

/-- The initial result dictionary of `process_frame` (all flags false,
`processing_time` 0, nothing set). -/
def initResult : FrameResult :=
  { success := false, skipped := false, skip_reason := none
    motion_percent := none, similarity := none, threat_analysis := none
    alert_sent := false, alert_debounced := false
    processing_time := 0, error := none }

/-- Embeds `process_frame`.  Faithful to the source control flow:
* `total_frames` is incremented first;
* the two skip paths `return` from inside the `try`, before the
  `processing_time` assignment at the bottom, so they carry
  `processing_time = 0`;
* a classification failure is caught by the broad `except`: `success`
  stays false, `error` is set, `processed` and the threat/alert counters
  are not incremented, but the gate states already mutated are kept;
* `send_alert` is invoked unconditionally when a threat is detected and
  Telegram is enabled (its debounce helpers are never consulted before
  sending, and `_update_last_alert_time` is never called, so
  `last_alert_time` is unchanged on every path); when the send fails,
  `alerts_debounced` is incremented only if `_should_debounce` returns
  true at that moment. -/
def process_frame (cfg : PipelineConfig) (st : SystemState) (o : FrameOracle) :
    FrameResult × SystemState :=
  let stats0 : SessionStats := { st.stats with total_frames := st.stats.total_frames + 1 }
  let m := st.motion.detect_motion o.motionFrame
  if m.1.1 = false then
    ({ initResult with
       success := true,
       skipped := true,
       skip_reason := some "no_motion",
       motion_percent := some m.1.2 },
     { st with
       motion := m.2,
       stats := { stats0 with skipped_no_motion := stats0.skipped_no_motion + 1 } })
  else
    let dd := st.dedup.is_duplicate o.dedupFrame
    if dd.1.1 = true then
      ({ initResult with
         success := true,
         skipped := true,
         skip_reason := some "duplicate",
         similarity := some dd.1.2 },
       { st with
         motion := m.2,
         dedup := dd.2,
         stats := { stats0 with skipped_duplicate := stats0.skipped_duplicate + 1 } })
    else
      match o.classify with
      | .error msg =>
        ({ initResult with error := some msg, processing_time := o.elapsed },
         { st with motion := m.2, dedup := dd.2, stats := stats0 })
      | .ok tm =>
        let ta := analyze_threat cfg.threat_threshold tm
        let stats1 : SessionStats := { stats0 with processed := stats0.processed + 1 }
        if ta.threat_detected = true then
          let stats2 : SessionStats :=
            { stats1 with threats_detected := stats1.threats_detected + 1 }
          if cfg.telegram_enabled = true then
            if o.sendResult = true then
              ({ initResult with
                 success := true,
                 threat_analysis := some ta,
                 alert_sent := true,
                 processing_time := o.elapsed },
               { st with
                 motion := m.2,
                 dedup := dd.2,
                 stats := { stats2 with alerts_sent := stats2.alerts_sent + 1 } })
            else if should_debounce st.last_alert_time cfg.alert_cooldown
                ta.threat_level o.now = true then
              ({ initResult with
                 success := true,
                 threat_analysis := some ta,
                 alert_debounced := true,
                 processing_time := o.elapsed },
               { st with
                 motion := m.2,
                 dedup := dd.2,
                 stats := { stats2 with alerts_debounced := stats2.alerts_debounced + 1 } })
            else
              ({ initResult with
                 success := true,
                 threat_analysis := some ta,
                 processing_time := o.elapsed },
               { st with motion := m.2, dedup := dd.2, stats := stats2 })
          else
            ({ initResult with
               success := true,
               threat_analysis := some ta,
               processing_time := o.elapsed },
             { st with motion := m.2, dedup := dd.2, stats := stats2 })
        else
          ({ initResult with
             success := true,
             threat_analysis := some ta,
             processing_time := o.elapsed },
           { st with motion := m.2, dedup := dd.2, stats := stats1 })

/-- Embeds `ProcessingState.reset` (stream restart): resets the motion detector,
the deduplicator and the stats, and does not touch the notifier's
class-level debounce dictionary. -/
def stream_reset (s : SystemState) : SystemState :=
  { s with motion := s.motion.reset, dedup := s.dedup.reset, stats := initStats }

/-- The debounce reset path: `TelegramNotifier.reset_cooldown` clears the
class dictionary and touches nothing else. -/
def debounce_reset (s : SystemState) : SystemState :=
  { s with last_alert_time := reset_cooldown s.last_alert_time }

/-- The state built by `ProcessingState.__new__`: fresh gates with the
hard-coded tunables (`threshold=25`, `min_change_percent=0.5`,
`similarity_threshold=0.95`), zero stats, empty debounce dictionary. -/
def freshState : SystemState :=
  { motion := { prev_frame := none, threshold := 25
                min_change_percent := 1 / 2, frame_count := 0 }
    dedup := { prev_hash := none, similarity_threshold := 95 / 100 }
    stats := initStats
    last_alert_time := [] }

/-- Default configuration: Telegram enabled, `THREAT_THRESHOLD = 3`,
`ALERT_COOLDOWN_SECONDS = 10`. -/
def defaultConfig : PipelineConfig :=
  { telegram_enabled := true, threat_threshold := 3, alert_cooldown := 10 }

/-- Concrete oracle for a first CRITICAL threat event at time 0: both
gates decode the two-pixel raster `[0, 255]`, classification succeeds with
the intruder description, and the Telegram send succeeds. -/
def criticalEvent1 : FrameOracle :=
  { motionFrame := some [0, 255], dedupFrame := some [0, 255]
    classify := .ok intruderTM, sendResult := true, now := 0, elapsed := 1 }

/-- Concrete oracle for an identical CRITICAL threat event 3 seconds
later: the rasters are inverted (full motion, dissimilar hash) so both
gates pass, classification again reports the intruder description, and
the Telegram send succeeds. -/
def criticalEvent2 : FrameOracle :=
  { motionFrame := some [255, 0], dedupFrame := some [255, 0]
    classify := .ok intruderTM, sendResult := true, now := 3, elapsed := 1 }

/-- The state after processing `criticalEvent1` from `freshState`: one
frame seen and fully processed, one threat detected, one alert sent —
and, because `_update_last_alert_time` is never called, a still-empty
last-alert-time map. -/
def stateAfterEvent1 : SystemState :=
  { motion := { prev_frame := some [0, 255], threshold := 25
                min_change_percent := 1 / 2, frame_count := 1 }
    dedup := { prev_hash := some (compute_hash [0, 255]), similarity_threshold := 95 / 100 }
    stats := { total_frames := 1, skipped_no_motion := 0, skipped_duplicate := 0
               processed := 1, threats_detected := 1, alerts_sent := 1, alerts_debounced := 0 }
    last_alert_time := [] }

/-! ## Helper lemmas -/

/-- The length of a category's reason list is its number of matches. -/
theorem categoryReasons_length (label : String) (ms : List (Option String)) :
    (categoryReasons label ms).length = ms.countP (fun m => m.isSome) := by
  induction ms with
  | nil => rfl
  | cons m ms ih =>
    cases m with
    | none => simpa [categoryReasons, List.countP_cons] using ih
    | some s =>
      simp [categoryReasons, List.countP_cons] at ih ⊢
      simpa [categoryReasons] using ih

/-- Lemma: `categoryScore` keeps the score within `[1, 5]` for severities in
`[1, 5]`. -/
theorem categoryScore_bounds (sev : ℤ) (ms : List (Option String)) (s : ℤ)
    (hs1 : 1 ≤ s) (hs5 : s ≤ 5) (hv1 : 1 ≤ sev) (hv5 : sev ≤ 5) :
    1 ≤ categoryScore sev ms s ∧ categoryScore sev ms s ≤ 5 := by
  unfold categoryScore
  split <;> constructor <;> omega

/-- Lemma: `_calculate_confidence` equals the unconditional clamped formula: the
`if > 0` guards are immaterial because `min 0 40 = 0` and `min 0 30 = 0`. -/
theorem calculate_confidence_eq (ti ni : ℕ) :
    calculate_confidence ti ni =
      max 10 (min (50 + min ((ti : ℤ) * 15) 40 - min ((ni : ℤ) * 10) 30) 95) := by
  unfold calculate_confidence
  rcases Nat.eq_zero_or_pos ti with hti | hti <;>
    rcases Nat.eq_zero_or_pos ni with hni | hni <;>
    simp_all

/-- Lemma: `getD` of an all-zero list is zero at every index. -/
theorem getD_zero (l : List ℕ) (j : ℕ) (h : ∀ x ∈ l, x = 0) : l[j]?.getD 0 = 0 := by
  induction l generalizing j with
  | nil => simp [List.getD]
  | cons a l ih =>
    cases j with
    | zero => simpa using h a (by simp)
    | succ j => simpa using ih j (fun x hx => h x (by simp [hx]))

/-- Dilation of an all-zero raster is all-zero. -/
theorem dilate_zero (l : List ℕ) (h : ∀ x ∈ l, x = 0) : ∀ x ∈ dilate l, x = 0 := by
  intro x hx
  simp only [dilate, List.mem_map, List.mem_range] at hx
  obtain ⟨i, -, rfl⟩ := hx
  simp [getD_zero l _ h]

/-- Lemma: `cv2.absdiff` of a raster with itself is all-zero. -/
theorem absdiff_self (g : List ℕ) :
    List.zipWith (fun a b => max a b - min a b) g g = List.map (fun _ => 0) g := by
  induction g with
  | nil => rfl
  | cons a g ih => simp [ih]

/-- A hash compared bitwise with itself matches at every position. -/
theorem zipWith_beq_self_count (h : List Bool) :
    (List.zipWith (fun a b => a == b) h h).count true = h.length := by
  induction h with
  | nil => rfl
  | cons a h ih => simp [List.count_cons, ih]

/-- Lemma: `_compare_hashes` of a nonempty hash with itself returns similarity 1. -/
theorem compare_hashes_self (h : List Bool) (hne : h ≠ []) :
    compare_hashes h h = some 1 := by
  have hlen : h.length ≠ 0 := fun h0 => hne (List.length_eq_zero.mp h0)
  unfold compare_hashes
  simp [hlen, zipWith_beq_self_count, div_self (by exact_mod_cast hlen : ((h.length : ℚ) ≠ 0))]

/-- The average-hash has one bit per pixel. -/
theorem compute_hash_length (img : List ℕ) : (compute_hash img).length = img.length :=
  List.length_map _ _

/-- Lemma: `is_duplicate` on a decodable nonempty image always stores that image's
hash, whatever the prior state and verdict. -/
theorem is_duplicate_stores (d : FrameDeduplicator) (f : List ℕ) (hf : f ≠ []) :
    ((d.is_duplicate (some f)).2).prev_hash = some (compute_hash f) := by
  have hlen : (compute_hash f).length ≠ 0 := by
    rw [compute_hash_length]
    exact fun h0 => hf (List.length_eq_zero.mp h0)
  unfold FrameDeduplicator.is_duplicate
  cases hph : d.prev_hash with
  | none => simp
  | some ph =>
    simp only
    unfold compare_hashes
    by_cases hl : ph.length ≠ (compute_hash f).length
    · simp [hl]
    · simp only [hl, if_false, ite_not]
      have : ph.length ≠ 0 := by
        simp only [not_not] at hl
        omega
      simp [this]

/-- Lemma: `is_duplicate` never changes the configured similarity threshold. -/
theorem is_duplicate_threshold (d : FrameDeduplicator) (frame : Option (List ℕ)) :
    ((d.is_duplicate frame).2).similarity_threshold = d.similarity_threshold := by
  unfold FrameDeduplicator.is_duplicate
  cases frame with
  | none => rfl
  | some f =>
    cases hph : d.prev_hash with
    | none => rfl
    | some ph =>
      simp only
      cases hc : compare_hashes ph (compute_hash f) with
      | none => rfl
      | some s => rfl

/-! ## Claims -/

/-- C4: For every input text, `ThreatScorer.analyze(text).score` is an
integer in `[1, 5]`: severity is the maximum over matched categories
(multiple critical matches never push it above 5), and the
normal-indicator reduction never takes it below 1 regardless of how many
normal patterns match. -/
theorem C4_score_bounds (threshold : ℤ) (tm : TextMatches) :
    1 ≤ (analyze_threat threshold tm).threat_score ∧
      (analyze_threat threshold tm).threat_score ≤ 5 := by
  have h1 := categoryScore_bounds 5 tm.critical 1
    (by norm_num) (by norm_num) (by norm_num) (by norm_num)
  have h2 := categoryScore_bounds 4 tm.high _ h1.1 h1.2 (by norm_num) (by norm_num)
  have h3 := categoryScore_bounds 3 tm.medium _ h2.1 h2.2 (by norm_num) (by norm_num)
  unfold analyze_threat
  simp only
  split <;> constructor <;> omega

/-- C2 counterexample: on the text `"employee"` (one normal match, no
threat match) the code computes confidence 55 — `len(threat_reasons)` is
passed to `_calculate_confidence` after the normal-reduction summary is
appended, so the threat-indicator count is 1, not 0 — while the spec's
formula with `reasonCountExcludingNormalReduction = 0` gives 40. -/
theorem C2_counterexample :
    (analyze_threat 3 employeeTM).confidence = 55 ∧
    confidence_per_spec employeeTM = 40 ∧
    (analyze_threat 3 employeeTM).confidence ≠ confidence_per_spec employeeTM := by
  refine ⟨by decide, by decide, by decide⟩

/-- C2 (amended): for every input text, the confidence equals
`clamp(50 + min(15 × R, 40) − min(10 × N, 30), 10, 95)` where `R` is the
number of reason strings **including** the normal-reduction summary reason
(i.e. the full `threat_reasons` length) and `N` is the number of matching
normal-indicator patterns. -/
theorem C2_amended_confidence_formula (threshold : ℤ) (tm : TextMatches) :
    (analyze_threat threshold tm).confidence =
      max 10 (min (50 + min (((analyze_threat threshold tm).threat_reasons.length : ℤ) * 15) 40
        - min ((normalCount tm : ℤ) * 10) 30) 95) := by
  unfold analyze_threat
  simp only
  rw [calculate_confidence_eq]

/-- C3: `shouldSend(level, now)` is true iff `level` has no recorded
last-send time or `now − lastSendTime[level] ≥ cooldown`, and cooldown
clocks are independent per level: with cooldown 10s, after
`recordSent("HIGH", t0)`, `shouldSend("HIGH", t0+5)` is false,
`shouldSend("HIGH", t0+11)` is true and `shouldSend("MEDIUM", t0+1)` is
true. -/
theorem C3_should_send_spec (m : AlertMap) (cooldown now t0 : ℚ) (level : String) :
    (should_send m cooldown level now = true ↔
      (m.lookup level = none ∨ ∃ t, m.lookup level = some t ∧ cooldown ≤ now - t)) ∧
    should_send (update_last_alert_time [] "HIGH" t0) 10 "HIGH" (t0 + 5) = false ∧
    should_send (update_last_alert_time [] "HIGH" t0) 10 "HIGH" (t0 + 11) = true ∧
    should_send (update_last_alert_time [] "HIGH" t0) 10 "MEDIUM" (t0 + 1) = true := by
  have hmh : (("MEDIUM" : String) == "HIGH") = false := by decide
  have hhh : (("HIGH" : String) == "HIGH") = true := by decide
  refine ⟨?_, ?_, ?_, ?_⟩
  · unfold should_send should_debounce
    cases h : m.lookup level with
    | none => simp [h]
    | some t => simp [h, not_lt]
  · unfold should_send should_debounce update_last_alert_time
    simp [List.lookup, hhh]
    linarith
  · unfold should_send should_debounce update_last_alert_time
    simp [List.lookup, hhh, not_lt]
    linarith
  · unfold should_send should_debounce update_last_alert_time
    simp [List.lookup, hmh]

/-- C5: the bootstrap frame always yields `(true, 100.0)` and is stored;
every later successfully decoded frame (of the stored frame's shape)
replaces the stored frame regardless of the motion verdict; and a frame
identical to the stored one yields no motion with changed fraction 0
(for the pipeline's positive minimum-change setting). -/
theorem C5_motion_gate_state (d : MotionDetector) (g prev : List ℕ) :
    (d.prev_frame = none →
      d.detect_motion (some g) =
        ((true, 100),
          { d with prev_frame := some g, frame_count := d.frame_count + 1 })) ∧
    (d.prev_frame = some prev → prev.length = g.length →
      (d.detect_motion (some g)).2.prev_frame = some g) ∧
    (d.prev_frame = some g → 0 < d.min_change_percent →
      (d.detect_motion (some g)).1 = (false, 0)) := by
  obtain ⟨pf, th, mcp, fc⟩ := d
  refine ⟨?_, ?_, ?_⟩
  · intro hpf
    simp only at hpf
    subst hpf
    rfl
  · intro hpf hlen
    simp only at hpf
    subst hpf
    simp [MotionDetector.detect_motion, hlen]
  · intro hpf hmcp
    simp only at hpf
    subst hpf
    simp only [MotionDetector.detect_motion, ne_eq, not_true_eq_false, if_false]
    have hth : ∀ x ∈ (List.zipWith (fun a b => max a b - min a b) g g).map
        (fun p => if th < p then (255 : ℕ) else 0), x = 0 := by
      rw [absdiff_self]
      intro x hx
      simp only [List.map_map, List.mem_map] at hx
      obtain ⟨a, -, rfl⟩ := hx
      simp
    have hdil : ∀ x ∈ dilate (dilate ((List.zipWith (fun a b => max a b - min a b) g g).map
        (fun p => if th < p then (255 : ℕ) else 0))), x = 0 :=
      dilate_zero _ (dilate_zero _ hth)
    have hcount : (dilate (dilate ((List.zipWith (fun a b => max a b - min a b) g g).map
        (fun p => if th < p then (255 : ℕ) else 0)))).countP (fun p => decide (0 < p)) = 0 := by
      rw [List.countP_eq_zero]
      intro a ha
      simp [hdil a ha]
    simp only [ite_not, hcount, Nat.cast_zero, zero_div, zero_mul, ge_iff_le]
    have : ¬ (mcp ≤ 0) := not_le.mpr hmcp
    simp [this]

/-- C5 witness: the three conjuncts at concrete inputs — a fresh detector
bootstrapping on `[0, 255]`, a detector holding `[0, 255]` presented the
equal-length frame `[255, 0]`, and a detector holding `[5]` presented
`[5]` again with the pipeline's `min_change_percent = 0.5`. -/
theorem C5_motion_gate_state_witness :
    (MotionDetector.detect_motion
        { prev_frame := none, threshold := 25, min_change_percent := 1 / 2, frame_count := 0 }
        (some [0, 255]) =
      ((true, 100),
        { prev_frame := some [0, 255], threshold := 25
          min_change_percent := 1 / 2, frame_count := 1 })) ∧
    ((MotionDetector.detect_motion
        { prev_frame := some [0, 255], threshold := 25, min_change_percent := 1 / 2, frame_count := 1 }
        (some [255, 0])).2.prev_frame = some [255, 0]) ∧
    ((MotionDetector.detect_motion
        { prev_frame := some [5], threshold := 25, min_change_percent := 1 / 2, frame_count := 1 }
        (some [5])).1 = (false, 0)) :=
  ⟨(C5_motion_gate_state _ [0, 255] []).1 rfl,
   (C5_motion_gate_state _ [255, 0] [0, 255]).2.1 rfl rfl,
   (C5_motion_gate_state _ [5] []).2.2 rfl (by norm_num)⟩

/-- C7: an undecodable frame makes MotionGate fail open with `(true, 0.0)`
and DuplicateGate fail open with `(false, 0.0)`, and neither the stored
prior frame nor the stored prior hash is mutated (the motion detector's
`frame_count`, incremented before the `try`, still advances). -/
theorem C7_fail_open (d : MotionDetector) (dd : FrameDeduplicator) :
    d.detect_motion none =
      ((true, 0), { d with frame_count := d.frame_count + 1 }) ∧
    (d.detect_motion none).2.prev_frame = d.prev_frame ∧
    dd.is_duplicate none = ((false, 0), dd) :=
  ⟨rfl, rfl, rfl⟩

/-- C8: after the bootstrap frame, presenting the same nonempty decoded
frame twice in a row yields similarity 1 and a duplicate verdict for
every similarity threshold ≤ 1. -/
theorem C8_identical_frames_duplicate (θ : ℚ) (f0 f : List ℕ)
    (hθ : θ ≤ 1) (hf : f ≠ []) :
    (((({ prev_hash := none, similarity_threshold := θ } :
          FrameDeduplicator).is_duplicate (some f0)).2.is_duplicate
            (some f)).2.is_duplicate (some f)).1 = (true, 1) := by
  set d1 := (({ prev_hash := none, similarity_threshold := θ } :
    FrameDeduplicator).is_duplicate (some f0)).2 with hd1
  set d2 := (d1.is_duplicate (some f)).2 with hd2
  have hph : d2.prev_hash = some (compute_hash f) := is_duplicate_stores d1 f hf
  have hθ2 : d2.similarity_threshold = θ := by
    rw [hd2, is_duplicate_threshold, hd1, is_duplicate_threshold]
  have hch : compute_hash f ≠ [] := by
    intro h0
    apply hf
    have := compute_hash_length f
    rw [h0] at this
    exact List.length_eq_zero.mp this.symm
  show (d2.is_duplicate (some f)).1 = (true, 1)
  unfold FrameDeduplicator.is_duplicate
  rw [hph]
  simp only [compare_hashes_self _ hch]
  simp [hθ2, hθ]

/-- C8 witness: threshold 0.95 (the pipeline's), bootstrap `[0]`, then the
frame `[5, 9]` presented twice. -/
theorem C8_identical_frames_duplicate_witness :
    (((({ prev_hash := none, similarity_threshold := 95 / 100 } :
          FrameDeduplicator).is_duplicate (some [0])).2.is_duplicate
            (some [5, 9])).2.is_duplicate (some [5, 9])).1 = (true, 1) :=
  C8_identical_frames_duplicate (95 / 100) [0] [5, 9] (by norm_num) (by decide)

/-- C9: the two reset paths are independent — `ProcessingState.reset`
clears the motion history, the dedup history and all session statistics
while leaving the per-level last-alert-time map unchanged, and
`TelegramNotifier.reset_cooldown` clears only the last-alert-time map,
leaving statistics, motion history and dedup history unchanged. -/
theorem C9_reset_independence (s : SystemState) :
    (stream_reset s).last_alert_time = s.last_alert_time ∧
    (stream_reset s).motion.prev_frame = none ∧
    (stream_reset s).motion.frame_count = 0 ∧
    (stream_reset s).dedup.prev_hash = none ∧
    (stream_reset s).stats = initStats ∧
    (debounce_reset s).last_alert_time = [] ∧
    (debounce_reset s).motion = s.motion ∧
    (debounce_reset s).dedup = s.dedup ∧
    (debounce_reset s).stats = s.stats :=
  ⟨rfl, rfl, rfl, rfl, rfl, rfl, rfl, rfl, rfl⟩

/-- On every path, `process_frame` leaves the last-alert-time map
unchanged: `_update_last_alert_time` is never called anywhere in the
repository. -/
theorem process_frame_alert_map (cfg : PipelineConfig) (st : SystemState) (o : FrameOracle) :
    (process_frame cfg st o).2.last_alert_time = st.last_alert_time := by
  simp only [process_frame]
  (repeat' split) <;> rfl

/-- Whenever both gates pass, classification succeeds with a
threat-detected analysis, Telegram is enabled and the network send
succeeds, `process_frame` dispatches the alert — no debounce state is
consulted before sending. -/
theorem process_frame_dispatch (cfg : PipelineConfig) (st : SystemState)
    (o : FrameOracle) (tm : TextMatches)
    (hm : (st.motion.detect_motion o.motionFrame).1.1 = true)
    (hd : (st.dedup.is_duplicate o.dedupFrame).1.1 = false)
    (hc : o.classify = .ok tm)
    (hta : (analyze_threat cfg.threat_threshold tm).threat_detected = true)
    (hen : cfg.telegram_enabled = true)
    (hs : o.sendResult = true) :
    (process_frame cfg st o).1.alert_sent = true ∧
    (process_frame cfg st o).1.alert_debounced = false ∧
    (process_frame cfg st o).2.stats.alerts_sent = st.stats.alerts_sent + 1 ∧
    (process_frame cfg st o).2.stats.alerts_debounced = st.stats.alerts_debounced := by
  simp [process_frame, hm, hd, hc, hta, hen, hs, initResult]

/-- The motion gate passes on the second frame of the C1 scenario. -/
theorem motion_gate_event2 :
    (stateAfterEvent1.motion.detect_motion (some [255, 0])).1.1 = true := by
  norm_num [stateAfterEvent1, MotionDetector.detect_motion, dilate, List.range_succ]

/-- The duplicate gate passes on the second frame of the C1 scenario. -/
theorem dedup_gate_event2 :
    (stateAfterEvent1.dedup.is_duplicate (some [255, 0])).1.1 = false := by
  norm_num [stateAfterEvent1, FrameDeduplicator.is_duplicate, compute_hash,
    compare_hashes, List.count_cons]

/-- C1 counterexample: the end-to-end debounce scenario of the spec fails
on the code.  From a fresh state with cooldown 10s, a CRITICAL threat
frame at t=0 is dispatched (confirmed send), yet no send time is recorded
for CRITICAL (the last-alert-time map stays empty, i.e. `recordSent` was
not called); an identical CRITICAL threat frame 3 seconds later — well
within the cooldown — is dispatched again (`alert_sent` true) instead of
being debounced (`alert_debounced` false, `alerts_debounced` still 0). -/
theorem C1_counterexample :
    ((process_frame defaultConfig freshState criticalEvent1).1.alert_sent = true) ∧
    ((process_frame defaultConfig freshState criticalEvent1).2.last_alert_time.lookup
      "CRITICAL" = none) ∧
    ((process_frame defaultConfig
        (process_frame defaultConfig freshState criticalEvent1).2
        criticalEvent2).1.alert_sent = true) ∧
    ((process_frame defaultConfig
        (process_frame defaultConfig freshState criticalEvent1).2
        criticalEvent2).1.alert_debounced = false) ∧
    ((process_frame defaultConfig
        (process_frame defaultConfig freshState criticalEvent1).2
        criticalEvent2).2.stats.alerts_debounced = 0) := by
  have hst1 : (process_frame defaultConfig freshState criticalEvent1).2 = stateAfterEvent1 := rfl
  have hdisp := process_frame_dispatch defaultConfig stateAfterEvent1 criticalEvent2 intruderTM
    motion_gate_event2 dedup_gate_event2 rfl (by decide) rfl rfl
  refine ⟨by decide, by decide, ?_, ?_, ?_⟩
  · rw [hst1]
    exact hdisp.1
  · rw [hst1]
    exact hdisp.2.1
  · rw [hst1]
    exact hdisp.2.2.2.trans rfl

/-- C1 (amended): when a threat is detected and alert dispatching is
enabled, the pipeline invokes the notifier unconditionally — it never
consults `shouldSend` before sending, and a confirmed send never records
a send time (`_update_last_alert_time` is never called, so the
last-alert-time map is unchanged by every `process_frame` call); hence a
second same-level threat within the cooldown after a confirmed send is
dispatched again rather than debounced, and `alerts_debounced` is
incremented only when the send fails while `_should_debounce` is true. -/
theorem C1_amended_unconditional_dispatch (cfg : PipelineConfig) (st : SystemState)
    (o : FrameOracle) (tm : TextMatches) :
    ((process_frame cfg st o).2.last_alert_time = st.last_alert_time) ∧
    ((st.motion.detect_motion o.motionFrame).1.1 = true →
      (st.dedup.is_duplicate o.dedupFrame).1.1 = false →
      o.classify = .ok tm →
      (analyze_threat cfg.threat_threshold tm).threat_detected = true →
      cfg.telegram_enabled = true →
      o.sendResult = true →
      (process_frame cfg st o).1.alert_sent = true ∧
      (process_frame cfg st o).1.alert_debounced = false ∧
      (process_frame cfg st o).2.stats.alerts_sent = st.stats.alerts_sent + 1 ∧
      (process_frame cfg st o).2.stats.alerts_debounced = st.stats.alerts_debounced) :=
  ⟨process_frame_alert_map cfg st o,
   fun hm hd hc hta hen hs => process_frame_dispatch cfg st o tm hm hd hc hta hen hs⟩

/-- C1 amended-claim witness: the first CRITICAL threat event from a fresh
state (gates pass, classification reports the intruder text, send
succeeds) is dispatched and counted, and the last-alert-time map is
unchanged. -/
theorem C1_amended_unconditional_dispatch_witness :
    ((process_frame defaultConfig freshState criticalEvent1).2.last_alert_time =
      freshState.last_alert_time) ∧
    ((process_frame defaultConfig freshState criticalEvent1).1.alert_sent = true ∧
      (process_frame defaultConfig freshState criticalEvent1).1.alert_debounced = false ∧
      (process_frame defaultConfig freshState criticalEvent1).2.stats.alerts_sent =
        freshState.stats.alerts_sent + 1 ∧
      (process_frame defaultConfig freshState criticalEvent1).2.stats.alerts_debounced =
        freshState.stats.alerts_debounced) :=
  ⟨(C1_amended_unconditional_dispatch defaultConfig freshState criticalEvent1 intruderTM).1,
   (C1_amended_unconditional_dispatch defaultConfig freshState criticalEvent1 intruderTM).2
     (by decide) (by decide) rfl (by decide) rfl rfl⟩

/-- C6: `processed` is incremented exactly on the frames that complete
classification and threat scoring; when the classification collaborator
fails, the frame is marked failed (`success` false, `error` set) and
`processed`, `threats_detected` and the alert counters are untouched,
while `total_frames` (already incremented) and the skip counters are
preserved. -/
theorem C6_classification_failure (cfg : PipelineConfig) (st : SystemState)
    (o : FrameOracle) (msg : String) :
    ((process_frame cfg st o).2.stats.processed =
      st.stats.processed +
        (if (process_frame cfg st o).1.skipped = false ∧
            (process_frame cfg st o).1.error = none then 1 else 0)) ∧
    ((st.motion.detect_motion o.motionFrame).1.1 = true →
      (st.dedup.is_duplicate o.dedupFrame).1.1 = false →
      o.classify = .error msg →
      (process_frame cfg st o).1.success = false ∧
      (process_frame cfg st o).1.error = some msg ∧
      (process_frame cfg st o).2.stats.processed = st.stats.processed ∧
      (process_frame cfg st o).2.stats.threats_detected = st.stats.threats_detected ∧
      (process_frame cfg st o).2.stats.alerts_sent = st.stats.alerts_sent ∧
      (process_frame cfg st o).2.stats.alerts_debounced = st.stats.alerts_debounced ∧
      (process_frame cfg st o).2.stats.total_frames = st.stats.total_frames + 1 ∧
      (process_frame cfg st o).2.stats.skipped_no_motion = st.stats.skipped_no_motion ∧
      (process_frame cfg st o).2.stats.skipped_duplicate = st.stats.skipped_duplicate) := by
  constructor
  · simp only [process_frame]
    (repeat' split) <;> first | rfl | simp_all [initResult]
  · intro hm hd hc
    simp [process_frame, hm, hd, hc, initResult]

/-- C6 witness: a fresh state whose bootstrap frame passes both gates and
whose classification fails with message `"API error"`. -/
theorem C6_classification_failure_witness :
    ((process_frame defaultConfig freshState
        { motionFrame := some [0, 255], dedupFrame := some [0, 255]
          classify := .error "API error", sendResult := true, now := 0, elapsed := 1 }).1.success
      = false) ∧
    ((process_frame defaultConfig freshState
        { motionFrame := some [0, 255], dedupFrame := some [0, 255]
          classify := .error "API error", sendResult := true, now := 0, elapsed := 1 }).2.stats.processed
      = freshState.stats.processed) :=
  ⟨((C6_classification_failure defaultConfig freshState
      { motionFrame := some [0, 255], dedupFrame := some [0, 255]
        classify := .error "API error", sendResult := true, now := 0, elapsed := 1 }
      "API error").2 (by decide) (by decide) rfl).1,
   ((C6_classification_failure defaultConfig freshState
      { motionFrame := some [0, 255], dedupFrame := some [0, 255]
        classify := .error "API error", sendResult := true, now := 0, elapsed := 1 }
      "API error").2 (by decide) (by decide) rfl).2.2.1⟩

/-- C10: a skipped frame (no motion or duplicate) carries
`processing_time = 0` — the skip paths return before the elapsed-time
assignment — while every result that passes both gates carries the
measured elapsed duration. -/
theorem C10_processing_time (cfg : PipelineConfig) (st : SystemState) (o : FrameOracle) :
    (process_frame cfg st o).1.processing_time =
      (if (process_frame cfg st o).1.skipped = true then 0 else o.elapsed) := by
  simp only [process_frame]
  (repeat' split) <;> first | rfl | simp_all [initResult]

end AerialIntelligence
